import Mathlib

/-!
Shallow embedding of the intelligence manager (src/utils/intelligence.py) and
of the sign-workshop sample bootstrapper (src/workshops/sign/create_samples.py)
of the box-python-gen-workshop repository, with proofs of the specified
request-building and effect-trace properties.

Each request method is embedded as the fetch-effect program it runs: a tree
with one node per vendor fetch call, interpreted against an arbitrary
transport behaviour.  The workshop script is embedded as a client-effect
program over the vendor folder/upload operations.
-/

namespace BoxWorkshop

/-- Authentication object of the vendor SDK (box_sdk_gen.auth).  Its internals
belong to the vendor SDK; only its identity matters to the wrapper. -/
structure Authentication where
  token : String
deriving Repr, DecidableEq

/-- Base-URL record held by a vendor network session; both request methods
read base_url from it. -/
structure BaseUrls where
  base_url : String
deriving Repr, DecidableEq

/-- Network session object of the vendor SDK (box_sdk_gen.network). -/
structure NetworkSession where
  base_urls : BaseUrls
deriving Repr, DecidableEq

/-- Session built by the vendor constructor NetworkSession(): it points at the
vendor's public API base URL. -/
def NetworkSession.new : NetworkSession :=
  { base_urls := { base_url := "https://api.box.com/2.0" } }

/-- Modelled from the spec: the IntelligenceMode DTO of utils/ai_schemas.py is
not under src; the spec only says the mode selects qa or hubs_qa, so the type
is kept abstract as a tagged value. -/
structure IntelligenceMode where
  raw : String
deriving Repr, DecidableEq

/-- Modelled from the spec: the IntelligenceItem DTO of utils/ai_schemas.py is
not under src; the spec only says items are file references serialized
verbatim, so the type is kept abstract as a tagged value. -/
structure IntelligenceItem where
  raw : String
deriving Repr, DecidableEq

/-- Raw payload carried by an HTTP response, kept abstract. -/
structure ResponseData where
  raw : String
deriving Repr, DecidableEq

/-- Modelled from the spec: the IntelligenceResponse DTO of utils/ai_schemas.py
is not under src; the spec says the JSON response is deserialized verbatim into
it, so the type is the image of the response payload under deserialization. -/
structure IntelligenceResponse where
  payload : ResponseData
deriving Repr, DecidableEq

/-- Value of one entry of a request-body dictionary built by the two request
methods: a mode, a string, an item list, or an optional dialogue history. -/
inductive ReqValue where
  | vmode : IntelligenceMode → ReqValue
  | vstr : String → ReqValue
  | vitems : List IntelligenceItem → ReqValue
  | vhistory : Option (List IntelligenceItem) → ReqValue
deriving Repr, DecidableEq

/-- Request-body dictionary: ordered key/value pairs, as built in the source. -/
abbrev RequestBody := List (String × ReqValue)

/-- Serialized form of a request body.  The vendor serializer
(box_sdk_gen.serialization.serialize) is kept abstract as an injective
constructor, so equality of serialized data is equality of the dictionaries. -/
inductive SerializedData where
  | ofBody : RequestBody → SerializedData
deriving Repr, DecidableEq

/-- Vendor serializer applied to a request-body dictionary. -/
def serialize (body : RequestBody) : SerializedData :=
  SerializedData.ofBody body

/-- Vendor deserializer (box_sdk_gen.serialization.deserialize) into the
IntelligenceResponse type: wraps the raw response payload. -/
def deserialize (d : ResponseData) : IntelligenceResponse :=
  { payload := d }

/-- Extra-headers argument of both methods: Python Dict[str, Optional[str]]. -/
abbrev ExtraHeaders := List (String × Option String)

/-- Vendor helper box_sdk_gen.utils.prepare_params: keeps exactly the entries
whose value is present. -/
def prepare_params (m : ExtraHeaders) : List (String × String) :=
  m.filterMap (fun kv => kv.2.map (fun v => (kv.1, v)))

/-- Python dict spread: the source passes a fresh copy of extra_headers, with
the same entries, to prepare_params. -/
def dict_spread (m : ExtraHeaders) : ExtraHeaders := m

/-- Options record handed to the vendor fetch helper
(box_sdk_gen.fetch.FetchOptions), with the fields the source sets. -/
structure FetchOptions where
  method : String
  headers : List (String × String)
  data : SerializedData
  content_type : String
  response_format : String
  auth : Option Authentication
  network_session : Option NetworkSession
deriving Repr, DecidableEq

/-- Response produced by the vendor fetch helper (box_sdk_gen.fetch.FetchResponse). -/
structure FetchResponse where
  status_code : Nat
  data : ResponseData
deriving Repr, DecidableEq

/-- Failure raised inside the vendor SDK transport or serialization layer. -/
structure SdkError where
  message : String
deriving Repr, DecidableEq

/-- Effect tree of a computation whose only effect is the vendor fetch call:
either a finished value, or one fetch call with a continuation on its
response. -/
inductive FetchEff (α : Type) where
  | pure (a : α)
  | fetch (url : String) (options : FetchOptions) (k : FetchResponse → FetchEff α)

/-- Transport behaviour: what the vendor fetch helper does on a given call. -/
def FetchOracle := String → FetchOptions → Except SdkError FetchResponse

/-- Run a fetch-effect program against a transport behaviour; a transport
failure propagates as the result. -/
def runFetch {α : Type} (oracle : FetchOracle) : FetchEff α → Except SdkError α
  | .pure a => .ok a
  | .fetch url opts k =>
    match oracle url opts with
    | .error e => .error e
    | .ok r => runFetch oracle (k r)

/-- Fetch calls attempted while running a program against a transport
behaviour, in order, including a final failing call. -/
def fetchTrace {α : Type} (oracle : FetchOracle) :
    FetchEff α → List (String × FetchOptions)
  | .pure _ => []
  | .fetch url opts k =>
    (url, opts) ::
      (match oracle url opts with
       | .error _ => []
       | .ok r => fetchTrace oracle (k r))

/-- State of utils.intelligence.IntelligenceManager; both fields can hold None
in Python, hence Option. -/
structure IntelligenceManager where
  auth : Option Authentication
  network_session : Option NetworkSession
deriving Repr, DecidableEq

/-- Constructor of IntelligenceManager: a missing network session is replaced
by a fresh NetworkSession(), auth is stored as given. -/
def IntelligenceManager.init (auth : Option Authentication := none)
    (network_session : Option NetworkSession := none) : IntelligenceManager :=
  let ns : NetworkSession :=
    match network_session with
    | none => NetworkSession.new
    | some s => s
  { auth := auth, network_session := some ns }

/-- Method intelligence_ask of src/utils/intelligence.py, embedded as the
fetch-effect program it runs, paired with the post-call manager state and the
post-call caller view of extra_headers; none models the attribute error Python
raises when network_session holds None. -/
def IntelligenceManager.intelligence_ask (self : IntelligenceManager)
    (mode : IntelligenceMode) (prompt : String)
    (items : List IntelligenceItem)
    (extra_headers : Option ExtraHeaders := none) :
    Option (FetchEff IntelligenceResponse × IntelligenceManager × Option ExtraHeaders) :=
  let eh : ExtraHeaders :=
    match extra_headers with
    | none => []
    | some m => m
  let request_body : RequestBody :=
    [("mode", ReqValue.vmode mode), ("prompt", ReqValue.vstr prompt),
     ("items", ReqValue.vitems items)]
  let headers_map : List (String × String) := prepare_params (dict_spread eh)
  match self.network_session with
  | none => none
  | some ns =>
    some
      (FetchEff.fetch (String.join [ns.base_urls.base_url, "/ai/ask"])
        { method := "POST"
          headers := headers_map
          data := serialize request_body
          content_type := "application/json"
          response_format := "json"
          auth := self.auth
          network_session := some ns }
        (fun response => FetchEff.pure (deserialize response.data)),
       self, extra_headers)

/-- Method intelligence_text_gen of src/utils/intelligence.py, embedded like
intelligence_ask. -/
def IntelligenceManager.intelligence_text_gen (self : IntelligenceManager)
    (prompt : String) (items : List IntelligenceItem)
    (dialogue_history : Option (List IntelligenceItem) := none)
    (extra_headers : Option ExtraHeaders := none) :
    Option (FetchEff IntelligenceResponse × IntelligenceManager × Option ExtraHeaders) :=
  let eh : ExtraHeaders :=
    match extra_headers with
    | none => []
    | some m => m
  let request_body : RequestBody :=
    [("prompt", ReqValue.vstr prompt), ("items", ReqValue.vitems items),
     ("dialogue_history", ReqValue.vhistory dialogue_history)]
  let headers_map : List (String × String) := prepare_params (dict_spread eh)
  match self.network_session with
  | none => none
  | some ns =>
    some
      (FetchEff.fetch (String.join [ns.base_urls.base_url, "/ai/text_gen"])
        { method := "POST"
          headers := headers_map
          data := serialize request_body
          content_type := "application/json"
          response_format := "json"
          auth := self.auth
          network_session := some ns }
        (fun response => FetchEff.pure (deserialize response.data)),
       self, extra_headers)

/-- Folder DTO returned by the vendor folder operations. -/
structure Folder where
  id : String
  name : String
deriving Repr, DecidableEq

/-- Effect tree of a workshop script over the vendor client: folder lookup by
id, folder creation under a parent, and upload of a local directory into a
folder. -/
inductive ClientEff (α : Type) where
  | pure (a : α)
  | getFolderById (id : String) (k : Folder → ClientEff α)
  | createFolder (name : String) (parent : Folder) (k : Folder → ClientEff α)
  | uploadDir (target : Folder) (local_path : String) (k : Unit → ClientEff α)

/-- Sequencing of client-effect programs. -/
def ClientEff.bind {α β : Type} : ClientEff α → (α → ClientEff β) → ClientEff β
  | .pure a, f => f a
  | .getFolderById i k, f => .getFolderById i (fun x => (k x).bind f)
  | .createFolder n p k, f => .createFolder n p (fun x => (k x).bind f)
  | .uploadDir t l k, f => .uploadDir t l (fun x => (k x).bind f)

/-- Vendor call client.folders.get_folder_by_id: one lookup returning the
folder. -/
def get_folder_by_id (id : String) : ClientEff Folder :=
  ClientEff.getFolderById id ClientEff.pure

/-- Modelled from the spec: create_box_folder of utils/box_utils.py is not
under src; per the spec the workshop scripts "create subfolders", so it is one
vendor folder-creation call under the given parent, returning the folder. -/
def create_box_folder (name : String) (parent : Folder) : ClientEff Folder :=
  ClientEff.createFolder name parent ClientEff.pure

/-- Modelled from the spec: folder_upload of utils/box_utils.py is not under
src; per the spec the workshop scripts "upload local sample files", so it is
one upload of the given local directory into the target folder. -/
def folder_upload (target : Folder) (local_path : String) : ClientEff Unit :=
  ClientEff.uploadDir target local_path ClientEff.pure

/-- Function create_samples of src/workshops/sign/create_samples.py: look up
folder "0", create "workshops" under it, "sign" under that, then
"signed docs" and "docs" under "sign", and upload the local sample directory
into "docs". -/
def create_samples : ClientEff Unit :=
  (get_folder_by_id "0").bind (fun root =>
    (create_box_folder "workshops" root).bind (fun wks_folder =>
      (create_box_folder "sign" wks_folder).bind (fun module_folder =>
        (create_box_folder "signed docs" module_folder).bind (fun _ =>
          (create_box_folder "docs" module_folder).bind (fun docs_folder =>
            folder_upload docs_folder "workshops/sign/content_samples/")))))

/-- Observable vendor-SDK call of a workshop script. -/
inductive BoxCall where
  | getFolderById (id : String)
  | createFolder (name : String) (parentId : String)
  | uploadDir (folderId : String) (local_path : String)
deriving Repr, DecidableEq

/-- Vendor-side behaviour of the folder operations: which folder a lookup or a
creation returns. -/
structure ClientOracle where
  onGet : String → Folder
  onCreate : String → Folder → Folder

/-- Vendor-SDK calls performed while running a client-effect program against a
given vendor behaviour, in order. -/
def clientTrace {α : Type} (env : ClientOracle) : ClientEff α → List BoxCall
  | .pure _ => []
  | .getFolderById i k =>
    BoxCall.getFolderById i :: clientTrace env (k (env.onGet i))
  | .createFolder n p k =>
    BoxCall.createFolder n p.id :: clientTrace env (k (env.onCreate n p))
  | .uploadDir t l k =>
    BoxCall.uploadDir t.id l :: clientTrace env (k ())

/-- Sample data used by the witness theorems. -/
def sampleMgr : IntelligenceManager :=
  { auth := some { token := "tok" },
    network_session := some { base_urls := { base_url := "https://u.example" } } }

/-- Sample mode used by the witness theorems. -/
def sampleMode : IntelligenceMode := { raw := "qa" }

/-- Sample item used by the witness theorems. -/
def sampleItem : IntelligenceItem := { raw := "file-42" }

/-- Sample transport behaviour used by the witness theorems: every call
succeeds with a fixed response. -/
def sampleOracle : FetchOracle :=
  fun _ _ => Except.ok { status_code := 200, data := { raw := "answer" } }

/-- Canonical equation for intelligence_ask when the manager holds a network
session: the method yields exactly one fetch node, the unchanged manager, and
the unchanged extra_headers. -/
theorem intelligence_ask_eq (self : IntelligenceManager)
    (mode : IntelligenceMode) (prompt : String) (items : List IntelligenceItem)
    (extra_headers : Option ExtraHeaders) (ns : NetworkSession)
    (h : self.network_session = some ns) :
    self.intelligence_ask mode prompt items extra_headers =
      some
        (FetchEff.fetch (String.join [ns.base_urls.base_url, "/ai/ask"])
          { method := "POST"
            headers := prepare_params (dict_spread (extra_headers.getD []))
            data := serialize
              [("mode", ReqValue.vmode mode), ("prompt", ReqValue.vstr prompt),
               ("items", ReqValue.vitems items)]
            content_type := "application/json"
            response_format := "json"
            auth := self.auth
            network_session := some ns }
          (fun response => FetchEff.pure (deserialize response.data)),
         self, extra_headers) := by
  unfold IntelligenceManager.intelligence_ask
  rw [h]
  cases extra_headers <;> rfl

/-- Canonical equation for intelligence_text_gen when the manager holds a
network session. -/
theorem intelligence_text_gen_eq (self : IntelligenceManager)
    (prompt : String) (items : List IntelligenceItem)
    (dialogue_history : Option (List IntelligenceItem))
    (extra_headers : Option ExtraHeaders) (ns : NetworkSession)
    (h : self.network_session = some ns) :
    self.intelligence_text_gen prompt items dialogue_history extra_headers =
      some
        (FetchEff.fetch (String.join [ns.base_urls.base_url, "/ai/text_gen"])
          { method := "POST"
            headers := prepare_params (dict_spread (extra_headers.getD []))
            data := serialize
              [("prompt", ReqValue.vstr prompt), ("items", ReqValue.vitems items),
               ("dialogue_history", ReqValue.vhistory dialogue_history)]
            content_type := "application/json"
            response_format := "json"
            auth := self.auth
            network_session := some ns }
          (fun response => FetchEff.pure (deserialize response.data)),
         self, extra_headers) := by
  unfold IntelligenceManager.intelligence_text_gen
  rw [h]
  cases extra_headers <;> rfl

/-- Running a single fetch node whose continuation finishes immediately
attempts exactly that one call, whatever the transport does. -/
theorem fetchTrace_fetch_pure {α : Type} (oracle : FetchOracle) (url : String)
    (opts : FetchOptions) (f : FetchResponse → α) :
    fetchTrace oracle
        (FetchEff.fetch url opts (fun r => FetchEff.pure (f r))) =
      [(url, opts)] := by
  unfold fetchTrace
  cases oracle url opts <;> rfl

/-- Running a single fetch node returns the continuation's value on a
successful call. -/
theorem runFetch_fetch_pure_ok {α : Type} (oracle : FetchOracle) (url : String)
    (opts : FetchOptions) (f : FetchResponse → α) (r : FetchResponse)
    (h : oracle url opts = Except.ok r) :
    runFetch oracle (FetchEff.fetch url opts (fun s => FetchEff.pure (f s))) =
      Except.ok (f r) := by
  unfold runFetch
  rw [h]
  rfl

/-- Running a single fetch node propagates a transport failure unchanged. -/
theorem runFetch_fetch_error {α : Type} (oracle : FetchOracle) (url : String)
    (opts : FetchOptions) (k : FetchResponse → FetchEff α) (e : SdkError)
    (h : oracle url opts = Except.error e) :
    runFetch oracle (FetchEff.fetch url opts k) = Except.error e := by
  unfold runFetch
  rw [h]

/-- C1: for every mode, prompt, items and extra_headers, intelligence_ask
issues exactly one HTTP POST, at the network session's base URL joined with
"/ai/ask", whose serialized JSON body is the dictionary
mode / prompt / items built verbatim from the arguments. -/
theorem intelligence_ask_single_post (self : IntelligenceManager)
    (mode : IntelligenceMode) (prompt : String) (items : List IntelligenceItem)
    (extra_headers : Option ExtraHeaders) (ns : NetworkSession)
    (oracle : FetchOracle)
    (h : self.network_session = some ns) :
    ∃ prog m' eh' opts k,
      self.intelligence_ask mode prompt items extra_headers =
          some (prog, m', eh') ∧
      prog = FetchEff.fetch (String.join [ns.base_urls.base_url, "/ai/ask"])
          opts k ∧
      opts.method = "POST" ∧
      opts.data = serialize
        [("mode", ReqValue.vmode mode), ("prompt", ReqValue.vstr prompt),
         ("items", ReqValue.vitems items)] ∧
      fetchTrace oracle prog =
        [(String.join [ns.base_urls.base_url, "/ai/ask"], opts)] := by
  refine ⟨_, _, _, _, _,
    intelligence_ask_eq self mode prompt items extra_headers ns h,
    rfl, rfl, rfl, ?_⟩
  exact fetchTrace_fetch_pure oracle _ _ _

/-- Witness for C1 at concrete inputs. -/
theorem intelligence_ask_single_post_witness :
    ∃ prog m' eh' opts k,
      sampleMgr.intelligence_ask sampleMode "what" [sampleItem] none =
          some (prog, m', eh') ∧
      prog = FetchEff.fetch (String.join ["https://u.example", "/ai/ask"])
          opts k ∧
      opts.method = "POST" ∧
      opts.data = serialize
        [("mode", ReqValue.vmode sampleMode), ("prompt", ReqValue.vstr "what"),
         ("items", ReqValue.vitems [sampleItem])] ∧
      fetchTrace sampleOracle prog =
        [(String.join ["https://u.example", "/ai/ask"], opts)] :=
  intelligence_ask_single_post sampleMgr sampleMode "what" [sampleItem] none
    { base_urls := { base_url := "https://u.example" } } sampleOracle rfl

/-- C2: for every prompt, items, dialogue_history and extra_headers,
intelligence_text_gen issues exactly one HTTP POST, at the network session's
base URL joined with "/ai/text_gen", whose serialized JSON body is the
dictionary prompt / items / dialogue_history built verbatim from the
arguments. -/
theorem intelligence_text_gen_single_post (self : IntelligenceManager)
    (prompt : String) (items : List IntelligenceItem)
    (dialogue_history : Option (List IntelligenceItem))
    (extra_headers : Option ExtraHeaders) (ns : NetworkSession)
    (oracle : FetchOracle)
    (h : self.network_session = some ns) :
    ∃ prog m' eh' opts k,
      self.intelligence_text_gen prompt items dialogue_history extra_headers =
          some (prog, m', eh') ∧
      prog = FetchEff.fetch
          (String.join [ns.base_urls.base_url, "/ai/text_gen"]) opts k ∧
      opts.method = "POST" ∧
      opts.data = serialize
        [("prompt", ReqValue.vstr prompt), ("items", ReqValue.vitems items),
         ("dialogue_history", ReqValue.vhistory dialogue_history)] ∧
      fetchTrace oracle prog =
        [(String.join [ns.base_urls.base_url, "/ai/text_gen"], opts)] := by
  refine ⟨_, _, _, _, _,
    intelligence_text_gen_eq self prompt items dialogue_history extra_headers
      ns h,
    rfl, rfl, rfl, ?_⟩
  exact fetchTrace_fetch_pure oracle _ _ _

/-- Witness for C2 at concrete inputs. -/
theorem intelligence_text_gen_single_post_witness :
    ∃ prog m' eh' opts k,
      sampleMgr.intelligence_text_gen "write" [sampleItem] (some [sampleItem])
          none =
          some (prog, m', eh') ∧
      prog = FetchEff.fetch (String.join ["https://u.example", "/ai/text_gen"])
          opts k ∧
      opts.method = "POST" ∧
      opts.data = serialize
        [("prompt", ReqValue.vstr "write"),
         ("items", ReqValue.vitems [sampleItem]),
         ("dialogue_history", ReqValue.vhistory (some [sampleItem]))] ∧
      fetchTrace sampleOracle prog =
        [(String.join ["https://u.example", "/ai/text_gen"], opts)] :=
  intelligence_text_gen_single_post sampleMgr "write" [sampleItem]
    (some [sampleItem]) none
    { base_urls := { base_url := "https://u.example" } } sampleOracle rfl

/-- C3: on every input where the fetch call succeeds, both intelligence_ask
and intelligence_text_gen return exactly the deserialization of the fetch
response's data into IntelligenceResponse, with no further transformation. -/
theorem intelligence_returns_deserialized (self : IntelligenceManager)
    (mode : IntelligenceMode) (prompt : String) (items : List IntelligenceItem)
    (dialogue_history : Option (List IntelligenceItem))
    (extra_headers : Option ExtraHeaders) (ns : NetworkSession)
    (oracle : FetchOracle)
    (h : self.network_session = some ns) :
    ∃ progA urlA optsA progT urlT optsT,
      (∃ m' eh', self.intelligence_ask mode prompt items extra_headers =
          some (progA, m', eh')) ∧
      fetchTrace oracle progA = [(urlA, optsA)] ∧
      (∀ r, oracle urlA optsA = Except.ok r →
        runFetch oracle progA = Except.ok (deserialize r.data)) ∧
      (∃ m' eh', self.intelligence_text_gen prompt items dialogue_history
          extra_headers = some (progT, m', eh')) ∧
      fetchTrace oracle progT = [(urlT, optsT)] ∧
      (∀ r, oracle urlT optsT = Except.ok r →
        runFetch oracle progT = Except.ok (deserialize r.data)) := by
  refine ⟨_, _, _, _, _, _,
    ⟨_, _, intelligence_ask_eq self mode prompt items extra_headers ns h⟩,
    fetchTrace_fetch_pure oracle _ _ _,
    fun r hr => runFetch_fetch_pure_ok oracle _ _ _ r hr,
    ⟨_, _, intelligence_text_gen_eq self prompt items dialogue_history
      extra_headers ns h⟩,
    fetchTrace_fetch_pure oracle _ _ _,
    fun r hr => runFetch_fetch_pure_ok oracle _ _ _ r hr⟩

/-- Witness for C3 at concrete inputs. -/
theorem intelligence_returns_deserialized_witness :
    ∃ progA urlA optsA progT urlT optsT,
      (∃ m' eh', sampleMgr.intelligence_ask sampleMode "what" [sampleItem]
          none = some (progA, m', eh')) ∧
      fetchTrace sampleOracle progA = [(urlA, optsA)] ∧
      (∀ r, sampleOracle urlA optsA = Except.ok r →
        runFetch sampleOracle progA = Except.ok (deserialize r.data)) ∧
      (∃ m' eh', sampleMgr.intelligence_text_gen "what" [sampleItem] none
          none = some (progT, m', eh')) ∧
      fetchTrace sampleOracle progT = [(urlT, optsT)] ∧
      (∀ r, sampleOracle urlT optsT = Except.ok r →
        runFetch sampleOracle progT = Except.ok (deserialize r.data)) :=
  intelligence_returns_deserialized sampleMgr sampleMode "what" [sampleItem]
    none none { base_urls := { base_url := "https://u.example" } }
    sampleOracle rfl

/-- C4: on every call, both methods hand the vendor fetch helper exactly the
manager's stored auth and the manager's stored network session, with method
POST, content type application/json and response format json. -/
theorem intelligence_fetch_options_from_state (self : IntelligenceManager)
    (mode : IntelligenceMode) (prompt : String) (items : List IntelligenceItem)
    (dialogue_history : Option (List IntelligenceItem))
    (extra_headers : Option ExtraHeaders) (ns : NetworkSession)
    (h : self.network_session = some ns) :
    ∃ urlA optsA kA urlT optsT kT,
      (∃ m' eh', self.intelligence_ask mode prompt items extra_headers =
          some (FetchEff.fetch urlA optsA kA, m', eh')) ∧
      (∃ m' eh', self.intelligence_text_gen prompt items dialogue_history
          extra_headers = some (FetchEff.fetch urlT optsT kT, m', eh')) ∧
      optsA.auth = self.auth ∧ optsA.network_session = self.network_session ∧
      optsA.method = "POST" ∧ optsA.content_type = "application/json" ∧
      optsA.response_format = "json" ∧
      optsT.auth = self.auth ∧ optsT.network_session = self.network_session ∧
      optsT.method = "POST" ∧ optsT.content_type = "application/json" ∧
      optsT.response_format = "json" := by
  refine ⟨_, _, _, _, _, _,
    ⟨_, _, intelligence_ask_eq self mode prompt items extra_headers ns h⟩,
    ⟨_, _, intelligence_text_gen_eq self prompt items dialogue_history
      extra_headers ns h⟩,
    rfl, h.symm, rfl, rfl, rfl, rfl, h.symm, rfl, rfl, rfl⟩

/-- Witness for C4 at concrete inputs. -/
theorem intelligence_fetch_options_from_state_witness :
    ∃ urlA optsA kA urlT optsT kT,
      (∃ m' eh', sampleMgr.intelligence_ask sampleMode "what" [sampleItem]
          none = some (FetchEff.fetch urlA optsA kA, m', eh')) ∧
      (∃ m' eh', sampleMgr.intelligence_text_gen "what" [sampleItem] none
          none = some (FetchEff.fetch urlT optsT kT, m', eh')) ∧
      optsA.auth = sampleMgr.auth ∧
      optsA.network_session = sampleMgr.network_session ∧
      optsA.method = "POST" ∧ optsA.content_type = "application/json" ∧
      optsA.response_format = "json" ∧
      optsT.auth = sampleMgr.auth ∧
      optsT.network_session = sampleMgr.network_session ∧
      optsT.method = "POST" ∧ optsT.content_type = "application/json" ∧
      optsT.response_format = "json" :=
  intelligence_fetch_options_from_state sampleMgr sampleMode "what"
    [sampleItem] none none
    { base_urls := { base_url := "https://u.example" } } rfl

/-- C5: neither method catches, transforms or recovers from a transport
failure: the failure propagates unchanged, and every run attempts exactly one
fetch call, also when that call fails, so there is no retry. -/
theorem intelligence_no_catch_no_retry (self : IntelligenceManager)
    (mode : IntelligenceMode) (prompt : String) (items : List IntelligenceItem)
    (dialogue_history : Option (List IntelligenceItem))
    (extra_headers : Option ExtraHeaders) (ns : NetworkSession)
    (oracle : FetchOracle)
    (h : self.network_session = some ns) :
    ∃ progA urlA optsA progT urlT optsT,
      (∃ m' eh', self.intelligence_ask mode prompt items extra_headers =
          some (progA, m', eh')) ∧
      fetchTrace oracle progA = [(urlA, optsA)] ∧
      (∀ e, oracle urlA optsA = Except.error e →
        runFetch oracle progA = Except.error e) ∧
      (∃ m' eh', self.intelligence_text_gen prompt items dialogue_history
          extra_headers = some (progT, m', eh')) ∧
      fetchTrace oracle progT = [(urlT, optsT)] ∧
      (∀ e, oracle urlT optsT = Except.error e →
        runFetch oracle progT = Except.error e) := by
  refine ⟨_, _, _, _, _, _,
    ⟨_, _, intelligence_ask_eq self mode prompt items extra_headers ns h⟩,
    fetchTrace_fetch_pure oracle _ _ _,
    fun e he => runFetch_fetch_error oracle _ _ _ e he,
    ⟨_, _, intelligence_text_gen_eq self prompt items dialogue_history
      extra_headers ns h⟩,
    fetchTrace_fetch_pure oracle _ _ _,
    fun e he => runFetch_fetch_error oracle _ _ _ e he⟩

/-- Transport behaviour used by the C5 witness: every call fails. -/
def failingOracle : FetchOracle :=
  fun _ _ => Except.error { message := "boom" }

/-- Witness for C5 at concrete inputs, against a failing transport. -/
theorem intelligence_no_catch_no_retry_witness :
    ∃ progA urlA optsA progT urlT optsT,
      (∃ m' eh', sampleMgr.intelligence_ask sampleMode "what" [sampleItem]
          none = some (progA, m', eh')) ∧
      fetchTrace failingOracle progA = [(urlA, optsA)] ∧
      (∀ e, failingOracle urlA optsA = Except.error e →
        runFetch failingOracle progA = Except.error e) ∧
      (∃ m' eh', sampleMgr.intelligence_text_gen "what" [sampleItem] none
          none = some (progT, m', eh')) ∧
      fetchTrace failingOracle progT = [(urlT, optsT)] ∧
      (∀ e, failingOracle urlT optsT = Except.error e →
        runFetch failingOracle progT = Except.error e) :=
  intelligence_no_catch_no_retry sampleMgr sampleMode "what" [sampleItem]
    none none { base_urls := { base_url := "https://u.example" } }
    failingOracle rfl

/-- C6: given the same manager state and the same extra_headers, the two
methods build fetch calls that agree on headers, method, content type,
response format, auth and network session, share the response-handling
continuation, and differ only in the endpoint path suffix and the
request-body dictionary. -/
theorem intelligence_methods_aligned (self : IntelligenceManager)
    (mode : IntelligenceMode) (prompt : String) (items : List IntelligenceItem)
    (dialogue_history : Option (List IntelligenceItem))
    (extra_headers : Option ExtraHeaders) (ns : NetworkSession)
    (h : self.network_session = some ns) :
    ∃ urlA optsA kA urlT optsT kT,
      (∃ m' eh', self.intelligence_ask mode prompt items extra_headers =
          some (FetchEff.fetch urlA optsA kA, m', eh')) ∧
      (∃ m' eh', self.intelligence_text_gen prompt items dialogue_history
          extra_headers = some (FetchEff.fetch urlT optsT kT, m', eh')) ∧
      urlA = String.join [ns.base_urls.base_url, "/ai/ask"] ∧
      urlT = String.join [ns.base_urls.base_url, "/ai/text_gen"] ∧
      optsA.headers = optsT.headers ∧ optsA.method = optsT.method ∧
      optsA.content_type = optsT.content_type ∧
      optsA.response_format = optsT.response_format ∧
      optsA.auth = optsT.auth ∧
      optsA.network_session = optsT.network_session ∧
      kA = kT := by
  refine ⟨_, _, _, _, _, _,
    ⟨_, _, intelligence_ask_eq self mode prompt items extra_headers ns h⟩,
    ⟨_, _, intelligence_text_gen_eq self prompt items dialogue_history
      extra_headers ns h⟩,
    rfl, rfl, rfl, rfl, rfl, rfl, rfl, rfl, rfl⟩

/-- Witness for C6 at concrete inputs. -/
theorem intelligence_methods_aligned_witness :
    ∃ urlA optsA kA urlT optsT kT,
      (∃ m' eh', sampleMgr.intelligence_ask sampleMode "what" [sampleItem]
          none = some (FetchEff.fetch urlA optsA kA, m', eh')) ∧
      (∃ m' eh', sampleMgr.intelligence_text_gen "what" [sampleItem] none
          none = some (FetchEff.fetch urlT optsT kT, m', eh')) ∧
      urlA = String.join ["https://u.example", "/ai/ask"] ∧
      urlT = String.join ["https://u.example", "/ai/text_gen"] ∧
      optsA.headers = optsT.headers ∧ optsA.method = optsT.method ∧
      optsA.content_type = optsT.content_type ∧
      optsA.response_format = optsT.response_format ∧
      optsA.auth = optsT.auth ∧
      optsA.network_session = optsT.network_session ∧
      kA = kT :=
  intelligence_methods_aligned sampleMgr sampleMode "what" [sampleItem] none
    none { base_urls := { base_url := "https://u.example" } } rfl

/-- C7: for every vendor behaviour, create_samples performs exactly, in this
order: look up folder "0", create "workshops" under it, create "sign" under
"workshops", create "signed docs" and then "docs" under "sign", and upload the
local directory "workshops/sign/content_samples/" into "docs" — and no other
vendor-SDK call. -/
theorem create_samples_calls (env : ClientOracle) :
    clientTrace env create_samples =
      [BoxCall.getFolderById "0",
       BoxCall.createFolder "workshops" (env.onGet "0").id,
       BoxCall.createFolder "sign"
         (env.onCreate "workshops" (env.onGet "0")).id,
       BoxCall.createFolder "signed docs"
         (env.onCreate "sign" (env.onCreate "workshops" (env.onGet "0"))).id,
       BoxCall.createFolder "docs"
         (env.onCreate "sign" (env.onCreate "workshops" (env.onGet "0"))).id,
       BoxCall.uploadDir
         (env.onCreate "docs"
           (env.onCreate "sign"
             (env.onCreate "workshops" (env.onGet "0")))).id
         "workshops/sign/content_samples/"] := by
  rfl

/-- C8: when intelligence_text_gen is called with dialogue_history left at
its default None, the serialized request-body dictionary still carries the
key dialogue_history, mapped to None; the key is not omitted. -/
theorem intelligence_text_gen_keeps_none_history (self : IntelligenceManager)
    (prompt : String) (items : List IntelligenceItem)
    (extra_headers : Option ExtraHeaders) (ns : NetworkSession)
    (h : self.network_session = some ns) :
    ∃ url opts k m' eh' body,
      self.intelligence_text_gen prompt items none extra_headers =
          some (FetchEff.fetch url opts k, m', eh') ∧
      opts.data = serialize body ∧
      ("dialogue_history", ReqValue.vhistory none) ∈ body := by
  refine ⟨_, _, _, _, _, _,
    intelligence_text_gen_eq self prompt items none extra_headers ns h,
    rfl, ?_⟩
  simp

/-- Witness for C8 at concrete inputs. -/
theorem intelligence_text_gen_keeps_none_history_witness :
    ∃ url opts k m' eh' body,
      sampleMgr.intelligence_text_gen "write" [sampleItem] none none =
          some (FetchEff.fetch url opts k, m', eh') ∧
      opts.data = serialize body ∧
      ("dialogue_history", ReqValue.vhistory none) ∈ body :=
  intelligence_text_gen_keeps_none_history sampleMgr "write" [sampleItem]
    none { base_urls := { base_url := "https://u.example" } } rfl

/-- C9: after IntelligenceManager.init, the network_session field is never
None — a missing argument is replaced by a fresh NetworkSession — so both
request methods always get past reading the base URL, while auth is stored
as given, possibly None. -/
theorem init_network_session_never_none (auth : Option Authentication)
    (network_session : Option NetworkSession) (mode : IntelligenceMode)
    (prompt : String) (items : List IntelligenceItem)
    (dialogue_history : Option (List IntelligenceItem))
    (extra_headers : Option ExtraHeaders) :
    (IntelligenceManager.init auth network_session).auth = auth ∧
    (IntelligenceManager.init auth network_session).network_session ≠ none ∧
    ((IntelligenceManager.init auth network_session).intelligence_ask mode
        prompt items extra_headers).isSome = true ∧
    ((IntelligenceManager.init auth network_session).intelligence_text_gen
        prompt items dialogue_history extra_headers).isSome = true := by
  refine ⟨rfl, by simp [IntelligenceManager.init], ?_, ?_⟩
  · rw [intelligence_ask_eq (IntelligenceManager.init auth network_session)
      mode prompt items extra_headers _ rfl]
    rfl
  · rw [intelligence_text_gen_eq (IntelligenceManager.init auth
      network_session) prompt items dialogue_history extra_headers _ rfl]
    rfl

/-- C10: neither method changes the manager's auth or network_session fields,
and the caller's extra_headers value is returned untouched. -/
theorem intelligence_preserves_state (self : IntelligenceManager)
    (mode : IntelligenceMode) (prompt : String) (items : List IntelligenceItem)
    (dialogue_history : Option (List IntelligenceItem))
    (extra_headers : Option ExtraHeaders) (ns : NetworkSession)
    (h : self.network_session = some ns) :
    (∃ prog, self.intelligence_ask mode prompt items extra_headers =
        some (prog, self, extra_headers)) ∧
    (∃ prog, self.intelligence_text_gen prompt items dialogue_history
        extra_headers = some (prog, self, extra_headers)) :=
  ⟨⟨_, intelligence_ask_eq self mode prompt items extra_headers ns h⟩,
   ⟨_, intelligence_text_gen_eq self prompt items dialogue_history
      extra_headers ns h⟩⟩

/-- Witness for C10 at concrete inputs. -/
theorem intelligence_preserves_state_witness :
    (∃ prog, sampleMgr.intelligence_ask sampleMode "what" [sampleItem]
        (some [("traceparent", some "00-1")]) =
        some (prog, sampleMgr, some [("traceparent", some "00-1")])) ∧
    (∃ prog, sampleMgr.intelligence_text_gen "what" [sampleItem] none
        (some [("traceparent", some "00-1")]) =
        some (prog, sampleMgr, some [("traceparent", some "00-1")])) :=
  intelligence_preserves_state sampleMgr sampleMode "what" [sampleItem] none
    (some [("traceparent", some "00-1")])
    { base_urls := { base_url := "https://u.example" } } rfl

end BoxWorkshop
